import Mathlib

/-!
Shallow embedding of `compress_video.py`, a single-file video compression
utility. The script probes a video's duration and size, computes a target
video bitrate from a size budget, and invokes an external encoder.

Modelling conventions:
* Python floats are idealised as exact rationals (`ℚ`).
* Python `int()` applied to a float truncates toward zero; this is modelled
  by `pythonInt` below.
* File paths are opaque identifiers; only lookup in a filesystem map
  matters, so paths are modelled as `Nat`.
* The filesystem is a map from paths to `Option Nat` (byte size when the
  path exists, `none` when it does not). `os.path.exists p` is true exactly
  when the map returns `some`, and `os.path.getsize p` returns the bytes
  (raising `OSError`, modelled as `none`, when the path is missing).
* External processes (`ffprobe`, `ffmpeg`) are modelled by their observable
  results: an exit code plus, for the probe, the result of parsing its
  standard output as a number (`none` when `float(...)` would raise).
-/

set_option maxRecDepth 100000

-- Batteries marks the rational operations `@[irreducible]`; re-enable
-- definitional unfolding locally so concrete instances evaluate by `decide`.
attribute [local semireducible] Rat.mul Rat.inv Rat.add Rat.sub

namespace CompressVideo

/-- A file path. Paths are only ever used as lookup keys, so they are
modelled by an opaque countable identifier type. -/
abbrev Path := Nat

/-- A snapshot of the filesystem: for each path, `some bytes` when a file of
that size exists there, `none` when the path does not exist. -/
abbrev FileSystem := Path → Option Nat

/-- Python `int(x)` on a real-valued argument: truncation toward zero.
Stated with the executable `Rat.floor` (and `-⌊-q⌋` for the ceiling) so that
concrete instances evaluate inside the kernel; `pythonInt_eq` below restates
it with `⌊⌋`/`⌈⌉`. -/
def pythonInt (q : ℚ) : Int := if 0 ≤ q then Rat.floor q else -(Rat.floor (-q))

/-- Observable result of running the `ffprobe` subprocess in
`get_video_duration`: its exit code, and the value obtained by
`float(result.stdout.strip())`, abstracted as `some q` when the standard
output parses as the number `q` and `none` when `float` would raise
`ValueError`. -/
structure ProbeOutput where
  exitCode : Nat
  parsedStdout : Option ℚ
deriving DecidableEq

/-- The ways `get_video_duration` can end. Both failure forms terminate the
Python process with a non-zero exit status. -/
inductive DurationResult
  /-- `return float(result.stdout.strip())` succeeded. -/
  | ok (seconds : ℚ)
  /-- `subprocess.run(..., check=True)` raised `CalledProcessError`
  (probe exit code non-zero): the handler prints and calls `sys.exit(1)`. -/
  | probeFailed
  /-- `float(...)` raised `ValueError` (standard output not parseable as a
  number); no handler catches it, so the interpreter exits non-zero. -/
  | parseFailed
deriving DecidableEq

/-- `get_video_duration(input_file)` (source lines 11–26): runs `ffprobe`
with `check=True` and parses its stripped standard output as a float. -/
def get_video_duration (out : ProbeOutput) : DurationResult :=
  if out.exitCode ≠ 0 then .probeFailed
  else
    match out.parsedStdout with
    | some q => .ok q
    | none => .parseFailed

/-- Whether the duration probe made the process terminate with a non-zero
exit status (either via `sys.exit(1)` or via an uncaught `ValueError`). -/
def DurationResult.fatal : DurationResult → Bool
  | .ok _ => false
  | .probeFailed => true
  | .parseFailed => true

/-- `os.path.getsize(file_path)`: byte size of an existing path, `OSError`
(modelled as `none`) on a missing path. -/
def os_path_getsize (fs : FileSystem) (p : Path) : Option Nat := fs p

/-- `get_file_size_mb(file_path)` (source lines 28–30):
`os.path.getsize(file_path) / (1024 * 1024)`. `none` models the propagated
`OSError` when the path does not exist. -/
def get_file_size_mb (fs : FileSystem) (p : Path) : Option ℚ :=
  (os_path_getsize fs p).map (fun bytes => (bytes : ℚ) / (1024 * 1024))

/-- The bitrate-calculation step of `compress_video` (source lines 62–68):

    audio_bitrate_kbps = 128
    target_size_bits = target_size_mb * 8 * 1024 * 1024
    target_total_bitrate_kbps = (target_size_bits / duration) / 1000
    target_video_bitrate_kbps = target_total_bitrate_kbps - audio_bitrate_kbps
    target_video_bitrate_kbps = int(target_video_bitrate_kbps * 0.95)
-/
def target_video_bitrate_kbps (target_size_mb duration : ℚ) : Int :=
  let audio_bitrate_kbps : ℚ := 128
  let target_size_bits := target_size_mb * 8 * 1024 * 1024
  let target_total_bitrate_kbps := (target_size_bits / duration) / 1000
  pythonInt ((target_total_bitrate_kbps - audio_bitrate_kbps) * (95 / 100))

/-- The bitrate formula as the specification states it, before the safety
margin: `(target_size_mb * 8 * 1024 * 1024) / duration_seconds / 1000 -
audio_bitrate_kbps` with `audio_bitrate_kbps = 128`. -/
def spec_pre_margin (target_size_mb duration : ℚ) : ℚ :=
  target_size_mb * 8 * 1024 * 1024 / duration / 1000 - 128

/-- The full bitrate formula exactly as the specification states it:
`floor(((target_size_mb * 8 * 1024 * 1024) / duration_seconds / 1000 - 128)
* 0.95)`, with a genuine floor. -/
def spec_video_kbps (target_size_mb duration : ℚ) : Int :=
  ⌊spec_pre_margin target_size_mb duration * (95 / 100)⌋

/-- The environment a run of `compress_video` observes: the filesystem
before the run, the probe's behaviour on the input file, the encoder's exit
status, and the filesystem after the encode attempt (`ffmpeg` writes the
output file, so the snapshot may differ from the initial one). -/
structure Env where
  fs : FileSystem
  probeOut : ProbeOutput
  encodeExitZero : Bool
  fsAfter : FileSystem

/-- Everything observable about one run of `compress_video`: the process
exit status (0 = plain return from `main`), whether `ffprobe` was invoked,
how many times `ffmpeg` was invoked, the `-b:v` bitrate passed to it, whether
the output file's size was read back, the reported size reduction (from the
final summary, `none` when no summary is printed), and whether the output
file was ever deleted (the script has no cleanup path, so this is always
`false`). -/
structure Outcome where
  exitCode : Nat
  probeInvoked : Bool
  encoderCalls : Nat
  encoderBitrate : Option Int
  readOutputSize : Bool
  reportedReduction : Option ℚ
  outputDeleted : Bool
deriving DecidableEq

/-- `compress_video(input_file, output_file, target_size_mb)` (source lines
32–103), as a function of the observable environment. The `none` branch of
the first match is the `os.path.exists` failure (lines 43–45); the
early-return branch is lines 51–53; the probe branches are line 56; the
encode branches are lines 88–103, where a missing output file makes
`get_file_size_mb` raise an uncaught `OSError` (exit non-zero) and an
encoder failure is caught and answered with `sys.exit(1)`. -/
def compress_video (env : Env) (input_file output_file : Path)
    (target_size_mb : ℚ) : Outcome :=
  match get_file_size_mb env.fs input_file with
  | none =>
      { exitCode := 1, probeInvoked := false, encoderCalls := 0, encoderBitrate := none,
        readOutputSize := false, reportedReduction := none, outputDeleted := false }
  | some current_size_mb =>
      if current_size_mb ≤ target_size_mb then
        { exitCode := 0, probeInvoked := false, encoderCalls := 0, encoderBitrate := none,
          readOutputSize := false, reportedReduction := none, outputDeleted := false }
      else
        match get_video_duration env.probeOut with
        | .probeFailed =>
            { exitCode := 1, probeInvoked := true, encoderCalls := 0, encoderBitrate := none,
              readOutputSize := false, reportedReduction := none, outputDeleted := false }
        | .parseFailed =>
            { exitCode := 1, probeInvoked := true, encoderCalls := 0, encoderBitrate := none,
              readOutputSize := false, reportedReduction := none, outputDeleted := false }
        | .ok duration =>
            let video_kbps := target_video_bitrate_kbps target_size_mb duration
            if env.encodeExitZero then
              match get_file_size_mb env.fsAfter output_file with
              | some compressed_size_mb =>
                  { exitCode := 0, probeInvoked := true, encoderCalls := 1,
                    encoderBitrate := some video_kbps, readOutputSize := true,
                    reportedReduction :=
                      some (((current_size_mb - compressed_size_mb) / current_size_mb) * 100),
                    outputDeleted := false }
              | none =>
                  { exitCode := 1, probeInvoked := true, encoderCalls := 1,
                    encoderBitrate := some video_kbps, readOutputSize := true,
                    reportedReduction := none, outputDeleted := false }
            else
              { exitCode := 1, probeInvoked := true, encoderCalls := 1,
                encoderBitrate := some video_kbps, readOutputSize := false,
                reportedReduction := none, outputDeleted := false }

/-- A 10 MB input file, a successful probe reporting a 100000-second
duration, and a working encoder: a setup on which the computed video bitrate
is negative. -/
def degenerateEnv : Env where
  fs := fun _ => some 10485760
  probeOut := { exitCode := 0, parsedStdout := some 100000 }
  encodeExitZero := true
  fsAfter := fun _ => some 0

/-- An input file of exactly 83886080 bytes = 80 MB, for the boundary case
of the early-exit comparison. -/
def boundaryEnv : Env where
  fs := fun _ => some 83886080
  probeOut := { exitCode := 0, parsedStdout := some 600 }
  encodeExitZero := true
  fsAfter := fun _ => some 0

/-- A filesystem on which no path exists. -/
def missingEnv : Env where
  fs := fun _ => none
  probeOut := { exitCode := 0, parsedStdout := some 600 }
  encodeExitZero := true
  fsAfter := fun _ => none

/-- A 100 MB input, a successful probe reporting 600 seconds, a successful
encode, and a 70 MB output file. -/
def successEnv : Env where
  fs := fun _ => some 104857600
  probeOut := { exitCode := 0, parsedStdout := some 600 }
  encodeExitZero := true
  fsAfter := fun _ => some 73400320

/-- Same as `successEnv` except the encoder exits non-zero. -/
def failedEncodeEnv : Env where
  fs := fun _ => some 104857600
  probeOut := { exitCode := 0, parsedStdout := some 600 }
  encodeExitZero := false
  fsAfter := fun _ => some 73400320

/-! ### General lemmas about the embedding -/

/-- Batteries' executable `Rat.floor` agrees with the `FloorRing` floor. -/
theorem ratFloor_eq_floor (q : ℚ) : Rat.floor q = ⌊q⌋ :=
  (Rat.floor_def' q).trans Rat.floor_def.symm

/-- `pythonInt` is the floor on nonnegative arguments and the ceiling on
negative ones: truncation toward zero. -/
theorem pythonInt_eq (q : ℚ) : pythonInt q = if 0 ≤ q then ⌊q⌋ else ⌈q⌉ := by
  unfold pythonInt
  rw [ratFloor_eq_floor, ratFloor_eq_floor, Int.floor_neg, neg_neg]

/-- Truncation toward zero is monotone. -/
theorem pythonInt_mono {x y : ℚ} (h : x ≤ y) : pythonInt x ≤ pythonInt y := by
  rw [pythonInt_eq, pythonInt_eq]
  by_cases hx : 0 ≤ x
  · rw [if_pos hx, if_pos (hx.trans h)]
    exact Int.floor_le_floor h
  · by_cases hy : 0 ≤ y
    · rw [if_neg hx, if_pos hy]
      calc ⌈x⌉ ≤ ⌈(0:ℚ)⌉ := Int.ceil_le_ceil (le_of_not_le hx)
        _ = 0 := Int.ceil_zero
        _ ≤ ⌊y⌋ := Int.floor_nonneg.mpr hy
    · rw [if_neg hx, if_neg hy]
      exact Int.ceil_le_ceil h

/-! ### Claims -/

/-- C1 (counterexample): at `target_size_mb = 1`, `duration_seconds = 100000`
(both positive), the code's bitrate step returns `int()`-truncation `-121`,
not the claimed `floor` value `-122`, so the claimed formula fails. -/
theorem C1_floor_counterexample :
    (0:ℚ) < 1 ∧ (0:ℚ) < 100000 ∧
    target_video_bitrate_kbps 1 100000 ≠ spec_video_kbps 1 100000 := by
  refine ⟨by decide, by decide, ?_⟩
  rw [spec_video_kbps, ← ratFloor_eq_floor]
  decide

/-- C1 (amended): for positive `target_size_mb` and `duration_seconds`, the
bitrate step is deterministic and returns
`((target_size_mb * 8 * 1024 * 1024) / duration_seconds / 1000 - 128) * 0.95`
truncated toward zero (Python `int()`), which equals the claimed `floor`
whenever the pre-margin value is nonnegative; audio bitrate fixed at 128 and
safety margin fixed at 0.95. -/
theorem C1_bitrate_formula (t d : ℚ) (ht : 0 < t) (hd : 0 < d) :
    target_video_bitrate_kbps t d = pythonInt (spec_pre_margin t d * (95 / 100)) ∧
    (0 ≤ spec_pre_margin t d → target_video_bitrate_kbps t d = spec_video_kbps t d) := by
  constructor
  · rfl
  · intro h
    have h1 : 0 ≤ spec_pre_margin t d * (95 / 100) := by
      apply mul_nonneg h; norm_num
    show pythonInt (spec_pre_margin t d * (95 / 100)) = spec_video_kbps t d
    rw [pythonInt_eq, if_pos h1, spec_video_kbps]

/-- C1 (witness): the amended claim instantiated at `target_size_mb = 80`,
`duration_seconds = 600`. -/
theorem C1_bitrate_formula_witness :
    target_video_bitrate_kbps 80 600 = pythonInt (spec_pre_margin 80 600 * (95 / 100)) ∧
    (0 ≤ spec_pre_margin 80 600 → target_video_bitrate_kbps 80 600 = spec_video_kbps 80 600) :=
  C1_bitrate_formula 80 600 (by decide) (by decide)

/-- C2 (counterexample): at `target_size_mb = 80`, `duration_seconds = 600`
the bitrate step does not return 941. -/
theorem C2_not_941 : target_video_bitrate_kbps 80 600 ≠ 941 := by decide

/-- C2 (amended): at `target_size_mb = 80`, `duration_seconds = 600` the
bitrate step returns 940 kbps (the budget is 1118.481… kbps; minus 128 gives
990.481…; times 0.95 gives 940.957…, truncated to 940). -/
theorem C2_concrete_bitrate : target_video_bitrate_kbps 80 600 = 940 := by decide

/-- C3: for fixed positive duration, the computed video bitrate is monotone
non-decreasing in the target size. -/
theorem C3_monotone_in_target (d t1 t2 : ℚ) (hd : 0 < d) (ht1 : 0 < t1)
    (h12 : t1 < t2) :
    target_video_bitrate_kbps t1 d ≤ target_video_bitrate_kbps t2 d := by
  show pythonInt ((t1 * 8 * 1024 * 1024 / d / 1000 - 128) * (95 / 100)) ≤
    pythonInt ((t2 * 8 * 1024 * 1024 / d / 1000 - 128) * (95 / 100))
  apply pythonInt_mono
  have h : t1 * 8 * 1024 * 1024 / d / 1000 ≤ t2 * 8 * 1024 * 1024 / d / 1000 := by
    gcongr
  nlinarith [h]

/-- C3 (witness): monotonicity instantiated at duration 600 and target sizes
80 < 100. -/
theorem C3_monotone_witness :
    target_video_bitrate_kbps 80 600 ≤ target_video_bitrate_kbps 100 600 :=
  C3_monotone_in_target 600 80 100 (by decide) (by decide) (by decide)

/-- C4: when the input file exists and its measured size in MB is at most
the target (≤, including equality), `compress_video` returns with exit
status 0 without invoking the duration probe or the encoder. -/
theorem C4_early_exit (env : Env) (input_file output_file : Path)
    (target_size_mb cur : ℚ)
    (hin : get_file_size_mb env.fs input_file = some cur)
    (hle : cur ≤ target_size_mb) :
    compress_video env input_file output_file target_size_mb =
      { exitCode := 0, probeInvoked := false, encoderCalls := 0, encoderBitrate := none,
        readOutputSize := false, reportedReduction := none, outputDeleted := false } := by
  unfold compress_video
  rw [hin]
  simp [hle]

/-- C4 (witness): a 83886080-byte input measures exactly 80 MB; with target
80 MB the comparison `80 ≤ 80` holds and the short-circuit path is taken. -/
theorem C4_early_exit_witness :
    get_file_size_mb boundaryEnv.fs 0 = some 80 ∧
    compress_video boundaryEnv 0 1 80 =
      { exitCode := 0, probeInvoked := false, encoderCalls := 0, encoderBitrate := none,
        readOutputSize := false, reportedReduction := none, outputDeleted := false } :=
  ⟨by decide, C4_early_exit boundaryEnv 0 1 80 80 (by decide) (by decide)⟩

/-- C5: when the input path does not exist, `compress_video` terminates the
process with a non-zero status and neither the duration probe nor the
encoder is invoked. -/
theorem C5_missing_input (env : Env) (input_file output_file : Path)
    (target_size_mb : ℚ) (hin : env.fs input_file = none) :
    (compress_video env input_file output_file target_size_mb).exitCode ≠ 0 ∧
    (compress_video env input_file output_file target_size_mb).probeInvoked = false ∧
    (compress_video env input_file output_file target_size_mb).encoderCalls = 0 := by
  unfold compress_video
  simp [get_file_size_mb, os_path_getsize, hin]

/-- C5 (witness): the missing-input behaviour at a concrete empty
filesystem. -/
theorem C5_missing_input_witness :
    (compress_video missingEnv 0 1 80).exitCode ≠ 0 ∧
    (compress_video missingEnv 0 1 80).probeInvoked = false ∧
    (compress_video missingEnv 0 1 80).encoderCalls = 0 :=
  C5_missing_input missingEnv 0 1 80 rfl

/-- C6: `get_video_duration` terminates the process with a non-zero status
exactly when the probe tool exits non-zero or its standard output is not
parseable as a number; otherwise it returns the probed duration. -/
theorem C6_duration_probe (out : ProbeOutput) :
    ((get_video_duration out).fatal = true ↔
      out.exitCode ≠ 0 ∨ out.parsedStdout = none) ∧
    (∀ q : ℚ, out.exitCode = 0 → out.parsedStdout = some q →
      get_video_duration out = .ok q) := by
  constructor
  · unfold get_video_duration
    by_cases h : out.exitCode = 0
    · cases hp : out.parsedStdout <;>
        simp [h, hp, DurationResult.fatal]
    · simp [h, DurationResult.fatal]
  · intro q h0 hp
    unfold get_video_duration
    simp [h0, hp]

/-- C6 (witness): the probe contract at exit code 0 with stdout parsing to
600, and at exit code 1. -/
theorem C6_duration_probe_witness :
    get_video_duration { exitCode := 0, parsedStdout := some 600 } = .ok 600 ∧
    ((get_video_duration { exitCode := 1, parsedStdout := some 600 }).fatal = true ↔
      (1:Nat) ≠ 0 ∨ (some (600:ℚ) : Option ℚ) = none) :=
  ⟨(C6_duration_probe { exitCode := 0, parsedStdout := some 600 }).2 600 rfl rfl,
   (C6_duration_probe { exitCode := 1, parsedStdout := some 600 }).1⟩

/-- C7: there are valid inputs (positive target size and duration, input
large enough to need compression) on which the computed video bitrate is
negative, and `compress_video` passes the unmodified value straight to the
encoder invocation: a 10 MB input with target 1 MB and duration 100000 s
yields bitrate −121, and `ffmpeg` is invoked with exactly that value. -/
theorem C7_no_clamping :
    (0:ℚ) < 1 ∧ (0:ℚ) < 100000 ∧
    target_video_bitrate_kbps 1 100000 < 0 ∧
    (compress_video degenerateEnv 0 1 1).encoderCalls = 1 ∧
    (compress_video degenerateEnv 0 1 1).encoderBitrate =
      some (target_video_bitrate_kbps 1 100000) :=
  ⟨by decide, by decide, by decide, by decide, by decide⟩

/-- C8: `get_file_size_mb` returns the byte size divided by 1048576 on an
existing path and propagates the filesystem error (`none`) on a missing
path. -/
theorem C8_file_size (fs : FileSystem) (p : Path) :
    (∀ bytes : Nat, fs p = some bytes →
      get_file_size_mb fs p = some ((bytes : ℚ) / 1048576)) ∧
    (fs p = none → get_file_size_mb fs p = none) := by
  constructor
  · intro bytes h
    simp only [get_file_size_mb, os_path_getsize, h, Option.map_some]
    norm_num
  · intro h
    simp [get_file_size_mb, os_path_getsize, h]

/-- C8 (witness): the size contract at a concrete existing 83886080-byte
file and at a concrete missing path. -/
theorem C8_file_size_witness :
    get_file_size_mb (fun _ => some 83886080) 0 = some ((83886080 : ℚ) / 1048576) ∧
    get_file_size_mb (fun _ => none) 0 = none :=
  ⟨(C8_file_size (fun _ => some 83886080) 0).1 83886080 rfl,
   (C8_file_size (fun _ => none) 0).2 rfl⟩

/-- C9: after a successful encode, the reported reduction equals
`(original_mb - compressed_mb) / original_mb * 100` where `compressed_mb`
is re-measured from the output file on the post-encode filesystem (the
target size plays no role in the reported value). -/
theorem C9_reduction_reporting (env : Env) (input_file output_file : Path)
    (target_size_mb cur dur compressed : ℚ)
    (hin : get_file_size_mb env.fs input_file = some cur)
    (hgt : target_size_mb < cur)
    (hdur : get_video_duration env.probeOut = .ok dur)
    (henc : env.encodeExitZero = true)
    (hout : get_file_size_mb env.fsAfter output_file = some compressed) :
    (compress_video env input_file output_file target_size_mb).reportedReduction =
      some ((cur - compressed) / cur * 100) ∧
    (compress_video env input_file output_file target_size_mb).readOutputSize = true := by
  unfold compress_video
  rw [hin, hdur, henc, hout]
  simp [not_le.mpr hgt]

/-- C9 (witness): a 100 MB input compressed to a 70 MB output reports a
30% reduction, re-measured from the output file. -/
theorem C9_reduction_witness :
    (compress_video successEnv 0 1 80).reportedReduction =
      some (((100:ℚ) - 70) / 100 * 100) ∧
    (compress_video successEnv 0 1 80).readOutputSize = true :=
  C9_reduction_reporting successEnv 0 1 80 100 600 70
    (by decide) (by decide) rfl rfl (by decide)

/-- C10: when the encoder exits non-zero, `compress_video` never reads the
output file's size, prints no completion summary, terminates with a non-zero
status, invoked the encoder exactly once (no retry), and deletes nothing
(no cleanup of partial output). -/
theorem C10_encode_failure (env : Env) (input_file output_file : Path)
    (target_size_mb cur dur : ℚ)
    (hin : get_file_size_mb env.fs input_file = some cur)
    (hgt : target_size_mb < cur)
    (hdur : get_video_duration env.probeOut = .ok dur)
    (henc : env.encodeExitZero = false) :
    (compress_video env input_file output_file target_size_mb).readOutputSize = false ∧
    (compress_video env input_file output_file target_size_mb).reportedReduction = none ∧
    (compress_video env input_file output_file target_size_mb).exitCode ≠ 0 ∧
    (compress_video env input_file output_file target_size_mb).encoderCalls = 1 ∧
    (compress_video env input_file output_file target_size_mb).outputDeleted = false := by
  unfold compress_video
  rw [hin, hdur, henc]
  simp [not_le.mpr hgt]

/-- C10 (witness): the encode-failure behaviour at a concrete oversized
input with a failing encoder. -/
theorem C10_encode_failure_witness :
    (compress_video failedEncodeEnv 0 1 80).readOutputSize = false ∧
    (compress_video failedEncodeEnv 0 1 80).reportedReduction = none ∧
    (compress_video failedEncodeEnv 0 1 80).exitCode ≠ 0 ∧
    (compress_video failedEncodeEnv 0 1 80).encoderCalls = 1 ∧
    (compress_video failedEncodeEnv 0 1 80).outputDeleted = false :=
  C10_encode_failure failedEncodeEnv 0 1 80 100 600
    (by decide) (by decide) rfl rfl

end CompressVideo
